import Mathlib

/-!
Verification of CofI_KOSMOS `plot_dark_with_distributions.py`.

The single source function `plot_dark_with_distributions` histograms a dark
frame and optionally overlays a Poisson and a Gaussian curve.  We embed it as
a pure function producing the list of drawing commands issued to the plotting
surface, paired with an optional Python-style error (`ZeroDivisionError`).
Scalar parameters are modelled as exact rationals; distribution evaluations
(`scipy.stats.poisson(mu).pmf`, `scipy.stats.norm(loc, scale).pdf`,
`np.sqrt`) are modelled over the real numbers by their defining formulas.
-/

namespace CofIKOSMOS

/-- A drawing command issued to the ambient plotting surface: corresponds to
`plt.hist`, `plt.plot`, `plt.xlabel`, `plt.ylabel`, `plt.grid`, `plt.legend`. -/
inductive PlotCmd where
  | hist (data : List ℚ) (bins : ℕ) (lo hi : ℚ) (density : Bool) (label : String)
  | plot (pts : List (ℝ × ℝ)) (label : String)
  | xlabel (s : String)
  | ylabel (s : String)
  | grid
  | legend

/-- A Python runtime error surfaced by the function; `loc` names the source
expression whose evaluation raised it. -/
inductive PyErr where
  | zeroDivision (loc : String)
deriving DecidableEq

/-- `expected_mean_dark = dark_rate * exposure / gain`
(source line `expected_mean_dark = dark_rate * exposure / gain`). -/
def expected_mean_dark (dark_rate exposure gain : ℚ) : ℚ :=
  dark_rate * exposure / gain

/-- The mean passed to `stats.poisson`:
`expected_mean_dark - 3 * n_images`. -/
def pois_mu (dark_rate n_images exposure gain : ℚ) : ℚ :=
  expected_mean_dark dark_rate exposure gain - 3 * n_images

/-- `pois_x = np.arange(0, 200, 5)`: the sample points 0, 5, 10, ..., 195. -/
def pois_x : List ℕ :=
  (List.range 40).map (fun i => 5 * i)

/-- The Poisson probability mass function evaluated by scipy:
`pmf(k) = exp(-mu) * mu^k / k!`. -/
noncomputable def poisson_pmf (mu : ℝ) (k : ℕ) : ℝ :=
  Real.exp (-mu) * mu ^ k / (Nat.factorial k : ℝ)

/-- `new_area = np.sum(1 / n_images * pois.pmf(pois_x))`. -/
noncomputable def new_area (n_images : ℚ) (mu : ℝ) : ℝ :=
  (pois_x.map (fun k => ((1 / n_images : ℚ) : ℝ) * poisson_pmf mu k)).sum

/-- The normal probability density function evaluated by scipy:
`pdf(x) = exp(-(x - loc)^2 / (2 scale^2)) / (scale * sqrt(2 pi))`. -/
noncomputable def norm_pdf (loc scale x : ℝ) : ℝ :=
  Real.exp (-((x - loc) ^ 2) / (2 * scale ^ 2)) / (scale * Real.sqrt (2 * Real.pi))

/-- `expected_scale = rn / gain * np.sqrt(n_images)`. -/
noncomputable def expected_scale (rn gain n_images : ℚ) : ℝ :=
  ((rn / gain : ℚ) : ℝ) * Real.sqrt (n_images : ℝ)

/-- `expected_mean = expected_mean_dark * n_images`. -/
def expected_mean (dark_rate n_images exposure gain : ℚ) : ℚ :=
  expected_mean_dark dark_rate exposure gain * n_images

/-- The `loc` of the frozen Gaussian: `expected_mean - 3`. -/
def gauss_loc (dark_rate n_images exposure gain : ℚ) : ℚ :=
  expected_mean dark_rate n_images exposure gain - 3

/-- The `scale` of the frozen Gaussian: `expected_scale + 3`. -/
noncomputable def gauss_scale (rn gain n_images : ℚ) : ℝ :=
  expected_scale rn gain n_images + 3

/-- `np.linspace(a, b, num)` with the default inclusive endpoint:
the points `a + i * (b - a) / (num - 1)` for `i = 0, ..., num - 1`. -/
noncomputable def linspace (a b : ℝ) (num : ℕ) : List ℝ :=
  (List.range num).map (fun (i : ℕ) => a + (i : ℝ) * (b - a) / ((num : ℝ) - 1))

/-- `gauss_x = np.linspace(expected_mean - 3 * expected_scale + 3,
expected_mean + 3 * expected_scale + 3, num = 100)`. -/
noncomputable def gauss_x (rn dark_rate n_images exposure gain : ℚ) : List ℝ :=
  linspace
    ((expected_mean dark_rate n_images exposure gain : ℝ)
      - 3 * expected_scale rn gain n_images + 3)
    ((expected_mean dark_rate n_images exposure gain : ℝ)
      + 3 * expected_scale rn gain n_images + 3)
    100

/-- Python `"\x7b:5.2f\x7d".format`: round to two decimal places and pad on
the left with spaces to a minimum width of five characters. -/
def fmt52 (q : ℚ) : String :=
  let cents : ℤ := Int.floor (q * 100 + 1 / 2)
  let neg : Bool := decide (cents < 0)
  let a : ℕ := cents.natAbs
  let whole : ℕ := a / 100
  let frac : ℕ := a % 100
  let fracStr : String := (if frac < 10 then "0" else "") ++ toString frac
  let core : String := (if neg then "-" else "") ++ toString whole ++ "." ++ fracStr
  String.mk (List.replicate (5 - core.length) (Char.ofNat 32)) ++ core

/-- The Poisson curve label:
`"Poisson distribution, mean of \x7b:5.2f\x7d counts".format(expected_mean_dark)`. -/
def pois_label (dark_rate exposure gain : ℚ) : String :=
  "Poisson distribution, mean of "
    ++ fmt52 (expected_mean_dark dark_rate exposure gain) ++ " counts"

/-- The Gaussian curve label. -/
def gauss_label : String :=
  "Gaussian, standard dev is read noise in counts"

/-- The x-axis label: `"Dark counts in \x7b\x7d sec exposure".format(exposure)`. -/
def xlabel_str (exposure : ℚ) : String :=
  "Dark counts in " ++ toString exposure ++ " sec exposure"

/-- The y-axis label. -/
def ylabel_str : String :=
  "Fraction of pixels (area normalized to 1)"

/-- The trailing plot-feature commands shared by every successful call. -/
def tail_cmds (exposure : ℚ) : List PlotCmd :=
  [PlotCmd.xlabel (xlabel_str exposure), PlotCmd.ylabel ylabel_str,
   PlotCmd.grid, PlotCmd.legend]

/-- Embedding of `plot_dark_with_distributions(image, rn, dark_rate,
n_images, exposure, gain, show_poisson, show_gaussian)`.

Returns the list of drawing commands issued, in order, paired with the
Python error raised (if any).  `image` is a 2D array, flattened for the
histogram.  Python raises `ZeroDivisionError` on rational division by zero:
at `dark_rate * exposure / gain` when `gain = 0`, and at
`np.sum(1 / n_images * ...)` when `n_images = 0`; both happen after the
histogram has been drawn and before any overlay is plotted. -/
noncomputable def plot_dark_with_distributions
    (image : List (List ℚ)) (rn dark_rate : ℚ)
    (n_images exposure gain : ℚ)
    (show_poisson show_gaussian : Bool) :
    List PlotCmd × Option PyErr :=
  let histCmd := PlotCmd.hist image.flatten 100 (-50) 200 true "Dark frame"
  if gain = 0 then
    ([histCmd], some (PyErr.zeroDivision "expected_mean_dark"))
  else
    let mu : ℝ := ((pois_mu dark_rate n_images exposure gain : ℚ) : ℝ)
    if n_images = 0 then
      ([histCmd], some (PyErr.zeroDivision "new_area"))
    else
      let area : ℝ := new_area n_images mu
      let poisCmds : List PlotCmd :=
        if show_poisson then
          [PlotCmd.plot
            (pois_x.map (fun (k : ℕ) =>
              ((((k : ℚ) / n_images : ℚ) : ℝ), poisson_pmf mu k / area)))
            (pois_label dark_rate exposure gain)]
        else []
      let gaussCmds : List PlotCmd :=
        if show_gaussian then
          [PlotCmd.plot
            ((gauss_x rn dark_rate n_images exposure gain).map (fun x =>
              (x / (n_images : ℝ),
               norm_pdf ((gauss_loc dark_rate n_images exposure gain : ℚ) : ℝ)
                 (gauss_scale rn gain n_images) x * (n_images : ℝ))))
            gauss_label]
        else []
      (histCmd :: (poisCmds ++ gaussCmds ++ tail_cmds exposure), none)

/-- Recognizes histogram commands. -/
def isHist : PlotCmd → Bool
  | .hist _ _ _ _ _ _ => true
  | _ => false

/-- Recognizes overlay-curve (`plt.plot`) commands. -/
def isCurve : PlotCmd → Bool
  | .plot _ _ => true
  | _ => false

/-- Recognizes axis-label commands. -/
def isLabelCmd : PlotCmd → Bool
  | .xlabel _ => true
  | .ylabel _ => true
  | _ => false

lemma range100_head : (List.range 100).head? = some 0 := by decide

lemma range100_last : (List.range 100).getLast? = some 99 := by decide

lemma linspace_length (a b : ℝ) (n : ℕ) : (linspace a b n).length = n := by
  simp [linspace]

lemma linspace100_head (a b : ℝ) : (linspace a b 100).head? = some a := by
  unfold linspace
  rw [List.head?_map, range100_head]
  simp

lemma linspace100_last (a b : ℝ) : (linspace a b 100).getLast? = some b := by
  unfold linspace
  rw [List.getLast?_map, range100_last]
  norm_num

/-- C4: for every input image and every parameter setting, the first drawing
command is a density-normalized histogram of the flattened image with 100
bins over the fixed range [-50, 200], labeled "Dark frame". -/
theorem hist_command_spec (image : List (List ℚ)) (rn dark_rate n_images exposure gain : ℚ)
    (p g : Bool) :
    ((plot_dark_with_distributions image rn dark_rate n_images exposure gain p g).1).head? =
      some (PlotCmd.hist image.flatten 100 (-50) 200 true "Dark frame") := by
  unfold plot_dark_with_distributions
  by_cases hg : gain = 0 <;> by_cases hn : n_images = 0 <;> simp [hg, hn]

/-- C5: for positive `dark_rate`, `exposure`, `gain`, the derived quantity
`expected_mean_dark` equals `dark_rate * exposure / gain`, is linear in
`dark_rate` and in `exposure`, and is inversely proportional to `gain`
(it takes neither `n_images` nor `rn` as an argument, so it cannot depend
on them). -/
theorem expected_mean_dark_spec (dark_rate exposure gain : ℚ)
    (_hd : 0 < dark_rate) (_he : 0 < exposure) (_hg : 0 < gain) :
    expected_mean_dark dark_rate exposure gain = dark_rate * exposure / gain ∧
    (∀ a : ℚ, expected_mean_dark (a * dark_rate) exposure gain
      = a * expected_mean_dark dark_rate exposure gain) ∧
    (∀ b : ℚ, expected_mean_dark dark_rate (b * exposure) gain
      = b * expected_mean_dark dark_rate exposure gain) ∧
    (∀ c : ℚ, 0 < c → expected_mean_dark dark_rate exposure (c * gain)
      = expected_mean_dark dark_rate exposure gain / c) := by
  refine ⟨rfl, fun a => by unfold expected_mean_dark; ring,
    fun b => by unfold expected_mean_dark; ring, fun c hc => ?_⟩
  unfold expected_mean_dark
  rw [div_div]
  congr 1
  ring

/-- Witness for C5 at `dark_rate = 1, exposure = 2, gain = 4`. -/
theorem expected_mean_dark_spec_witness :
    expected_mean_dark 1 2 4 = 1 * 2 / 4 ∧
    (∀ a : ℚ, expected_mean_dark (a * 1) 2 4 = a * expected_mean_dark 1 2 4) ∧
    (∀ b : ℚ, expected_mean_dark 1 (b * 2) 4 = b * expected_mean_dark 1 2 4) ∧
    (∀ c : ℚ, 0 < c → expected_mean_dark 1 2 (c * 4) = expected_mean_dark 1 2 4 / c) :=
  expected_mean_dark_spec 1 2 4 (by norm_num) (by norm_num) (by norm_num)

/-- C9: at `rn = 5, dark_rate = 0.1, exposure = 30, gain = 1`:
with `n_images = 1`, `expected_mean_dark = 3`, the Poisson mean parameter is
`0`, the frozen Gaussian has scale `8` and location `0`; with `n_images = 4`
the Poisson mean parameter is `-9` (`expected_mean_dark` takes no
`n_images` argument, so it is unchanged at `3`). -/
theorem concrete_scenario_spec :
    expected_mean_dark (0.1 : ℚ) 30 1 = 3 ∧
    pois_mu (0.1 : ℚ) 1 30 1 = 0 ∧
    gauss_scale 5 1 1 = 8 ∧
    gauss_loc (0.1 : ℚ) 1 30 1 = 0 ∧
    pois_mu (0.1 : ℚ) 4 30 1 = -9 := by
  refine ⟨by norm_num [expected_mean_dark], by norm_num [pois_mu, expected_mean_dark], ?_,
    by norm_num [gauss_loc, expected_mean, expected_mean_dark],
    by norm_num [pois_mu, expected_mean_dark]⟩
  unfold gauss_scale expected_scale
  norm_num

/-- C7: for every call with `n_images = 0` (and a nonzero `gain`, so that
the earlier division `dark_rate * exposure / gain` succeeds), the function
raises `ZeroDivisionError` at the Poisson normalization step
(`np.sum(1 / n_images * pois.pmf(pois_x))`) and propagates it to the caller:
only the histogram command was issued, and the error is returned uncaught. -/
theorem numimages_zero_error (image : List (List ℚ)) (rn dark_rate exposure gain : ℚ)
    (p g : Bool) (hg : gain ≠ 0) :
    plot_dark_with_distributions image rn dark_rate 0 exposure gain p g =
      ([PlotCmd.hist image.flatten 100 (-50) 200 true "Dark frame"],
        some (PyErr.zeroDivision "new_area")) := by
  unfold plot_dark_with_distributions
  simp [hg]

/-- Witness for C7 at a concrete call. -/
theorem numimages_zero_error_witness :
    plot_dark_with_distributions [[0]] 5 (0.1 : ℚ) 0 30 1 true true =
      ([PlotCmd.hist [0] 100 (-50) 200 true "Dark frame"],
        some (PyErr.zeroDivision "new_area")) :=
  numimages_zero_error [[0]] 5 (0.1 : ℚ) 30 1 true true (by norm_num)

/-- C1: when `show_poisson` is true (on a successful call), the command drawn
immediately after the histogram plots, for each sample point `k` in
`0, 5, ..., 195`, the pair `(k / n_images, pmf(k) / new_area)` where the pmf
is that of the Poisson distribution with mean
`expected_mean_dark - 3 * n_images` and `new_area` is the sum of
`(1 / n_images) * pmf` over the sample points; the curve's label contains the
expected mean formatted to two decimal places. -/
theorem poisson_overlay_spec (image : List (List ℚ)) (rn dark_rate n_images exposure gain : ℚ)
    (g : Bool) (hg : gain ≠ 0) (hn : n_images ≠ 0) :
    ((plot_dark_with_distributions image rn dark_rate n_images exposure gain true g).1)[1]? =
      some (PlotCmd.plot
        (pois_x.map (fun (k : ℕ) =>
          ((((k : ℚ) / n_images : ℚ) : ℝ),
           poisson_pmf ((pois_mu dark_rate n_images exposure gain : ℚ) : ℝ) k /
             new_area n_images ((pois_mu dark_rate n_images exposure gain : ℚ) : ℝ))))
        ("Poisson distribution, mean of "
          ++ fmt52 (expected_mean_dark dark_rate exposure gain) ++ " counts")) ∧
    (plot_dark_with_distributions image rn dark_rate n_images exposure gain true g).2 = none := by
  unfold plot_dark_with_distributions pois_label
  simp [hg, hn]

/-- Witness for C1 at a concrete call. -/
theorem poisson_overlay_spec_witness :
    ((plot_dark_with_distributions [[0]] 5 (0.1 : ℚ) 1 30 1 true true).1)[1]? =
      some (PlotCmd.plot
        (pois_x.map (fun (k : ℕ) =>
          ((((k : ℚ) / 1 : ℚ) : ℝ),
           poisson_pmf ((pois_mu (0.1 : ℚ) 1 30 1 : ℚ) : ℝ) k /
             new_area 1 ((pois_mu (0.1 : ℚ) 1 30 1 : ℚ) : ℝ))))
        ("Poisson distribution, mean of "
          ++ fmt52 (expected_mean_dark (0.1 : ℚ) 30 1) ++ " counts")) ∧
    (plot_dark_with_distributions [[0]] 5 (0.1 : ℚ) 1 30 1 true true).2 = none :=
  poisson_overlay_spec [[0]] 5 (0.1 : ℚ) 1 30 1 true (by norm_num) (by norm_num)

/-- C2 counterexample: at `rn = 5, dark_rate = 0.1, n_images = 1,
exposure = 30, gain = 1` (where `gauss_loc = 0` and `gauss_scale = 8`), the
first sampled x-point is `-9`, not `gauss_loc - 3 * gauss_scale = -24` as the
claim's formula gives, and the first and last points (`-9` and `21`) are not
equidistant from `gauss_loc - 3 = -3`. -/
theorem gauss_sample_range_cex :
    (gauss_x 5 (0.1 : ℚ) 1 30 1).head? = some (-9) ∧
    (gauss_x 5 (0.1 : ℚ) 1 30 1).getLast? = some 21 ∧
    ((gauss_loc (0.1 : ℚ) 1 30 1 : ℚ) : ℝ) - 3 * gauss_scale 5 1 1 = -24 ∧
    ((-9 : ℝ) ≠ -24) ∧
    |(-9 : ℝ) - (((gauss_loc (0.1 : ℚ) 1 30 1 : ℚ) : ℝ) - 3)|
      ≠ |(21 : ℝ) - (((gauss_loc (0.1 : ℚ) 1 30 1 : ℚ) : ℝ) - 3)| := by
  have hs : expected_scale 5 1 1 = 5 := by
    unfold expected_scale
    norm_num
  have hm : ((expected_mean (0.1 : ℚ) 1 30 1 : ℚ) : ℝ) = 3 := by
    norm_num [expected_mean, expected_mean_dark]
  have hl : ((gauss_loc (0.1 : ℚ) 1 30 1 : ℚ) : ℝ) = 0 := by
    norm_num [gauss_loc, expected_mean, expected_mean_dark]
  refine ⟨?_, ?_, ?_, by norm_num, ?_⟩
  · unfold gauss_x
    rw [linspace100_head, hm, hs]
    norm_num
  · unfold gauss_x
    rw [linspace100_last, hm, hs]
    norm_num
  · rw [hl]
    unfold gauss_scale
    rw [hs]
    norm_num
  · rw [hl]
    rw [show (-9 : ℝ) - (0 - 3) = -6 by norm_num, show (21 : ℝ) - (0 - 3) = 24 by norm_num]
    rw [show |(-6 : ℝ)| = 6 by rw [abs_of_nonpos (by norm_num)]; norm_num,
        show |(24 : ℝ)| = 24 by rw [abs_of_nonneg (by norm_num)]]
    norm_num

/-- C2 (amended): the 100 equally spaced Gaussian sample x-points run from
`expected_mean - 3 * expected_scale + 3` to
`expected_mean + 3 * expected_scale + 3`, where
`expected_mean = expected_mean_dark * n_images` and
`expected_scale = rn / gain * sqrt(n_images)` carry no distribution offsets;
the first and last points are therefore equidistant from
`expected_mean + 3`, which exceeds the frozen distribution's mean
(`gauss_loc = expected_mean - 3`) by 6, so the points are symmetric around
the distribution's mean shifted by 6, not around the mean itself. -/
theorem gauss_sample_range_amended (rn dark_rate n_images exposure gain : ℚ) :
    (gauss_x rn dark_rate n_images exposure gain).length = 100 ∧
    (gauss_x rn dark_rate n_images exposure gain).head? =
      some ((expected_mean dark_rate n_images exposure gain : ℝ)
        - 3 * expected_scale rn gain n_images + 3) ∧
    (gauss_x rn dark_rate n_images exposure gain).getLast? =
      some ((expected_mean dark_rate n_images exposure gain : ℝ)
        + 3 * expected_scale rn gain n_images + 3) ∧
    (((expected_mean dark_rate n_images exposure gain : ℝ)
        - 3 * expected_scale rn gain n_images + 3)
      + ((expected_mean dark_rate n_images exposure gain : ℝ)
        + 3 * expected_scale rn gain n_images + 3)) / 2
      = ((gauss_loc dark_rate n_images exposure gain : ℚ) : ℝ) + 6 := by
  refine ⟨?_, ?_, ?_, ?_⟩
  · unfold gauss_x
    exact linspace_length _ _ _
  · unfold gauss_x
    exact linspace100_head _ _
  · unfold gauss_x
    exact linspace100_last _ _
  · simp only [gauss_loc]
    push_cast
    ring

/-- C3: when `show_gaussian` is true (on a successful call), the frozen
normal distribution has scale `rn / gain * sqrt(n_images) + 3` and location
`expected_mean_dark * n_images - 3`, and the trace contains the curve of
pairs `(x / n_images, pdf(x) * n_images)` over the sampled x-points, labeled
"Gaussian, standard dev is read noise in counts". -/
theorem gaussian_overlay_spec (image : List (List ℚ)) (rn dark_rate n_images exposure gain : ℚ)
    (p : Bool) (hg : gain ≠ 0) (hn : n_images ≠ 0) :
    gauss_scale rn gain n_images = ((rn / gain : ℚ) : ℝ) * Real.sqrt (n_images : ℝ) + 3 ∧
    gauss_loc dark_rate n_images exposure gain
      = expected_mean_dark dark_rate exposure gain * n_images - 3 ∧
    PlotCmd.plot
        ((gauss_x rn dark_rate n_images exposure gain).map (fun x =>
          (x / (n_images : ℝ),
           norm_pdf ((gauss_loc dark_rate n_images exposure gain : ℚ) : ℝ)
             (gauss_scale rn gain n_images) x * (n_images : ℝ))))
        "Gaussian, standard dev is read noise in counts"
      ∈ (plot_dark_with_distributions image rn dark_rate n_images exposure gain p true).1 := by
  refine ⟨rfl, rfl, ?_⟩
  unfold plot_dark_with_distributions gauss_label
  cases p <;> simp [hg, hn]

/-- Witness for C3 at a concrete call. -/
theorem gaussian_overlay_spec_witness :
    gauss_scale 5 1 1 = ((5 / 1 : ℚ) : ℝ) * Real.sqrt ((1 : ℚ) : ℝ) + 3 ∧
    gauss_loc (0.1 : ℚ) 1 30 1 = expected_mean_dark (0.1 : ℚ) 30 1 * 1 - 3 ∧
    PlotCmd.plot
        ((gauss_x 5 (0.1 : ℚ) 1 30 1).map (fun x =>
          (x / ((1 : ℚ) : ℝ),
           norm_pdf ((gauss_loc (0.1 : ℚ) 1 30 1 : ℚ) : ℝ)
             (gauss_scale 5 1 1) x * ((1 : ℚ) : ℝ))))
        "Gaussian, standard dev is read noise in counts"
      ∈ (plot_dark_with_distributions [[0]] 5 (0.1 : ℚ) 1 30 1 true true).1 :=
  gaussian_overlay_spec [[0]] 5 (0.1 : ℚ) 1 30 1 true (by norm_num) (by norm_num)

/-- C6: with both overlays disabled (on a successful call) the trace is
exactly the histogram followed by the axis-label, grid, and legend commands:
one histogram series and zero overlay curves; and for any flag setting the
histogram commands and the axis-label commands of the trace coincide with
those of the call with both flags false. -/
theorem overlays_disabled_spec (image : List (List ℚ)) (rn dark_rate n_images exposure gain : ℚ)
    (p g : Bool) (hg : gain ≠ 0) (hn : n_images ≠ 0) :
    plot_dark_with_distributions image rn dark_rate n_images exposure gain false false =
      (PlotCmd.hist image.flatten 100 (-50) 200 true "Dark frame" :: tail_cmds exposure,
        none) ∧
    (plot_dark_with_distributions image rn dark_rate n_images exposure gain false false).1.countP
        isHist = 1 ∧
    (plot_dark_with_distributions image rn dark_rate n_images exposure gain false false).1.countP
        isCurve = 0 ∧
    (plot_dark_with_distributions image rn dark_rate n_images exposure gain p g).1.filter
        isHist =
      (plot_dark_with_distributions image rn dark_rate n_images exposure gain false false).1.filter
        isHist ∧
    (plot_dark_with_distributions image rn dark_rate n_images exposure gain p g).1.filter
        isLabelCmd =
      (plot_dark_with_distributions image rn dark_rate n_images exposure gain false false).1.filter
        isLabelCmd := by
  unfold plot_dark_with_distributions
  cases p <;> cases g <;>
    simp [hg, hn, tail_cmds, isHist, isCurve, isLabelCmd]

/-- Witness for C6 at a concrete call. -/
theorem overlays_disabled_spec_witness :
    plot_dark_with_distributions [[0]] 5 (0.1 : ℚ) 1 30 1 false false =
      (PlotCmd.hist [0] 100 (-50) 200 true "Dark frame" :: tail_cmds 30, none) ∧
    (plot_dark_with_distributions [[0]] 5 (0.1 : ℚ) 1 30 1 false false).1.countP isHist = 1 ∧
    (plot_dark_with_distributions [[0]] 5 (0.1 : ℚ) 1 30 1 false false).1.countP isCurve = 0 ∧
    (plot_dark_with_distributions [[0]] 5 (0.1 : ℚ) 1 30 1 true true).1.filter isHist =
      (plot_dark_with_distributions [[0]] 5 (0.1 : ℚ) 1 30 1 false false).1.filter isHist ∧
    (plot_dark_with_distributions [[0]] 5 (0.1 : ℚ) 1 30 1 true true).1.filter isLabelCmd =
      (plot_dark_with_distributions [[0]] 5 (0.1 : ℚ) 1 30 1 false false).1.filter isLabelCmd :=
  overlays_disabled_spec [[0]] 5 (0.1 : ℚ) 1 30 1 true true (by norm_num) (by norm_num)

/-- C8: the error outcome of a call does not depend on `show_poisson` or
`show_gaussian` (the Poisson construction and the normalization sum are
evaluated before either flag is consulted), and in particular with
`n_images = 0` (and `gain` nonzero) the division-by-zero error in the
normalization sum occurs for every flag setting, including both flags
false. -/
theorem poisson_computed_regardless (image : List (List ℚ))
    (rn dark_rate n_images exposure gain : ℚ) (p g : Bool) :
    (plot_dark_with_distributions image rn dark_rate n_images exposure gain p g).2 =
      (plot_dark_with_distributions image rn dark_rate n_images exposure gain false false).2 ∧
    (n_images = 0 → gain ≠ 0 →
      (plot_dark_with_distributions image rn dark_rate n_images exposure gain p g).2 =
        some (PyErr.zeroDivision "new_area")) := by
  constructor
  · unfold plot_dark_with_distributions
    by_cases hgz : gain = 0 <;> by_cases hnz : n_images = 0 <;> simp [hgz, hnz]
  · intro hn hg
    unfold plot_dark_with_distributions
    simp [hg, hn]

/-- Witness for C8 at a concrete call with `n_images = 0` and both flags
false. -/
theorem poisson_computed_regardless_witness :
    (plot_dark_with_distributions [[0]] 5 (0.1 : ℚ) 0 30 1 false false).2 =
      (plot_dark_with_distributions [[0]] 5 (0.1 : ℚ) 0 30 1 false false).2 ∧
    (plot_dark_with_distributions [[0]] 5 (0.1 : ℚ) 0 30 1 false false).2 =
      some (PyErr.zeroDivision "new_area") :=
  ⟨(poisson_computed_regardless [[0]] 5 (0.1 : ℚ) 0 30 1 false false).1,
   (poisson_computed_regardless [[0]] 5 (0.1 : ℚ) 0 30 1 false false).2 rfl (by norm_num)⟩

/-- C10: for `n_images > 0` and a strictly positive Poisson mean parameter
`expected_mean_dark - 3 * n_images`, the normalization divisor `new_area`
(the sum of `(1 / n_images) * pmf` over the sample points 0, 5, ..., 195)
is strictly positive. -/
theorem new_area_pos (dark_rate n_images exposure gain : ℚ)
    (hn : 0 < n_images) (hmu : 0 < pois_mu dark_rate n_images exposure gain) :
    0 < new_area n_images ((pois_mu dark_rate n_images exposure gain : ℚ) : ℝ) := by
  unfold new_area
  apply List.sum_pos
  · intro x hx
    simp only [List.mem_map] at hx
    obtain ⟨k, _, rfl⟩ := hx
    apply mul_pos
    · exact_mod_cast one_div_pos.mpr hn
    · unfold poisson_pmf
      apply div_pos
      · apply mul_pos (Real.exp_pos _)
        apply pow_pos
        exact_mod_cast hmu
      · exact_mod_cast Nat.factorial_pos k
  · simp [pois_x]

/-- Witness for C10 at `dark_rate = 10, n_images = 1, exposure = 1,
gain = 1`, whose Poisson mean parameter is `7 > 0`. -/
theorem new_area_pos_witness :
    0 < new_area 1 ((pois_mu 10 1 1 1 : ℚ) : ℝ) :=
  new_area_pos 10 1 1 1 (by norm_num) (by norm_num [pois_mu, expected_mean_dark])

end CofIKOSMOS
